import Mathlib

/-!
Verification of the coordination logic of a networked video player
(`video_player.py`): the playback session manager (`VideoPlayer`), the
file-transfer server (`FileReceiver`) and the command dispatcher
(`VideoPlayerController`), shallowly embedded as pure state-passing
functions.  Bytes are modelled as `Nat` (values below 256 on the wire),
byte strings as `List Nat`, and the TCP connection as the deterministic
list of bytes the peer sends before closing.
-/

namespace VideoPlayerModel

/-- The playback status the specification talks about: `Idle` means no
live engine session, `Loaded` a session started paused, `Playing` a
running session. -/
inductive PlaybackStatus where
  | Idle
  | Loaded
  | Playing
deriving DecidableEq, Repr

/-- Mutable state of `VideoPlayer`: the subprocess handle (`None` when no
session is live), the FIFO control-channel descriptor, and the paused
flag.  Handles and descriptors are opaque, modelled as `Nat`. -/
structure PlayerState where
  process : Option Nat
  fifo_fd : Option Nat
  paused : Bool
deriving DecidableEq, Repr

/-- Environment facts outside the program's control: whether the video
file exists, whether spawning omxplayer succeeds, whether an `os.write`
to the FIFO succeeds, whether the engine exits within the 2 s graceful
wait in `stop`, whether an exception is raised inside `stop`'s try block,
and whether a live engine process is still alive when polled. -/
structure Env where
  videoExists : Bool
  spawnOk : Bool
  writeOk : Bool
  exitsInTimeout : Bool
  stopExn : Bool
  engineAlive : Bool
deriving DecidableEq, Repr

/-- Control instructions written to the omxplayer FIFO: `b"p"`
(pause/unpause toggle) and `b"q"` (quit). -/
inductive Instr where
  | pauseToggle
  | quit
deriving DecidableEq, Repr

/-- Result of a `VideoPlayer` operation: the returned boolean, the player
state afterwards, the control instructions successfully written to the
FIFO, and whether the whole process group was force-killed. -/
structure PResult where
  ok : Bool
  st : PlayerState
  sent : List Instr
  killedPg : Bool
deriving DecidableEq, Repr

/-- Model of `VideoPlayer._send_command`: succeeds iff the FIFO descriptor is set
and the write does not raise. -/
def sendCommandOk (env : Env) (st : PlayerState) : Bool :=
  st.fifo_fd.isSome && env.writeOk

/-- The state left by `stop`'s `finally` block (and by the self-healing
branch of `is_playing`): process handle, FIFO descriptor and paused flag
all cleared. -/
def clearSession (st : PlayerState) : PlayerState :=
  { st with process := none, fifo_fd := none, paused := false }

/-- Model of `VideoPlayer.play(paused)`: refuses if a process is already live or
the video file is missing; on spawn failure clears handle and descriptor
and returns `False`; on success records the new process and FIFO, and in
paused mode additionally sends `b"p"` and sets the paused flag. -/
def play (env : Env) (paused : Bool) (st : PlayerState) : PResult :=
  if st.process.isSome then ⟨false, st, [], false⟩
  else if !env.videoExists then ⟨false, st, [], false⟩
  else if !env.spawnOk then
    ⟨false, { st with process := none, fifo_fd := none }, [], false⟩
  else
    let st1 : PlayerState := { process := some 1, fifo_fd := some 1, paused := false }
    if paused then
      ⟨true, { st1 with paused := true },
        if env.writeOk then [Instr.pauseToggle] else [], false⟩
    else
      ⟨true, st1, [], false⟩

/-- Model of `VideoPlayer.preload`: `play` with `paused=True`. -/
def preload (env : Env) (st : PlayerState) : PResult :=
  play env true st

/-- Model of `VideoPlayer.go`: fails if no process is live or the session is not
paused; otherwise sends `b"p"` and clears the paused flag iff the send
succeeds. -/
def go (env : Env) (st : PlayerState) : PResult :=
  if st.process.isNone then ⟨false, st, [], false⟩
  else if !st.paused then ⟨false, st, [], false⟩
  else if sendCommandOk env st then
    ⟨true, { st with paused := false }, [Instr.pauseToggle], false⟩
  else ⟨false, st, [], false⟩

/-- Model of `VideoPlayer.stop`: returns `False` untouched when no process is
live; otherwise sends `b"q"`, waits up to 2 s, force-kills the process
group on timeout, and in the `finally` block always clears process,
descriptor and paused flag, returning `True`. -/
def stop (env : Env) (st : PlayerState) : PResult :=
  if st.process.isNone then ⟨false, st, [], false⟩
  else
    ⟨true, clearSession st,
      if sendCommandOk env st then [Instr.quit] else [],
      !env.stopExn && !env.exitsInTimeout⟩

/-- The graceful-exit timeout (seconds) passed to `process.wait` in
`VideoPlayer.stop`. -/
def GRACEFUL_STOP_TIMEOUT : Nat := 2

/-- Model of `VideoPlayer.is_playing`: `False` when no process is live; when the
process has exited spontaneously, clears the session state (self-healing)
and returns `False`; otherwise `True`. -/
def isPlayingRun (env : Env) (st : PlayerState) : Bool × PlayerState :=
  match st.process with
  | none => (false, st)
  | some _ => if env.engineAlive then (true, st) else (false, clearSession st)

/-- The playback status determined by a player state. -/
def status (st : PlayerState) : PlaybackStatus :=
  match st.process with
  | none => .Idle
  | some _ => if st.paused then .Loaded else .Playing

/-! ### Command parsing (`VideoPlayerController._handle_command`) -/

/-- The six ASCII whitespace bytes removed by Python's `bytes.strip()`. -/
def isSpaceByte (b : Nat) : Bool :=
  b == 32 || b == 9 || b == 10 || b == 13 || b == 11 || b == 12

/-- Strip leading whitespace bytes. -/
def lstripBytes (l : List Nat) : List Nat := l.dropWhile isSpaceByte

/-- Strip trailing whitespace bytes. -/
def rstripBytes (l : List Nat) : List Nat :=
  (l.reverse.dropWhile isSpaceByte).reverse

/-- Python `bytes.strip()`: whitespace removed from both ends. -/
def stripBytes (l : List Nat) : List Nat := rstripBytes (lstripBytes l)

/-- Python `bytes.upper()` on one byte: `a`–`z` mapped to `A`–`Z`. -/
def upperByte (b : Nat) : Nat := if 97 ≤ b ∧ b ≤ 122 then b - 32 else b

/-- Python `bytes.upper()`. -/
def upperBytes (l : List Nat) : List Nat := l.map upperByte

/-- ASCII `b"PLAY"`. -/
def PLAY_BYTES : List Nat := [80, 76, 65, 89]
/-- ASCII `b"STOP"`. -/
def STOP_BYTES : List Nat := [83, 84, 79, 80]
/-- ASCII `b"LOAD"`. -/
def LOAD_BYTES : List Nat := [76, 79, 65, 68]
/-- ASCII `b"GO"`. -/
def GO_BYTES : List Nat := [71, 79]

/-- The commands `_handle_command` distinguishes; `unknown` is the
fall-through branch that only logs. -/
inductive Cmd where
  | play
  | stop
  | load
  | go
  | unknown
deriving DecidableEq, Repr

/-- The comparison `command = data.strip().upper()` matched against the four literals,
exactly as `_handle_command` does. -/
def parseCommand (data : List Nat) : Cmd :=
  let c := upperBytes (stripBytes data)
  if c = PLAY_BYTES then .play
  else if c = STOP_BYTES then .stop
  else if c = LOAD_BYTES then .load
  else if c = GO_BYTES then .go
  else .unknown

/-- Normalization as the claim words it: only trailing whitespace
stripped, then case-normalized.  Kept separate from `stripBytes` (the
source behaviour) so the two can be compared. -/
def claimTrailingNormalize (data : List Nat) : List Nat :=
  upperBytes (rstripBytes data)

/-! ### File transfer (`FileReceiver`) -/

/-- Contents of the two files the transfer touches: the destination media
file and the staging (temp) file; `none` means the file does not exist. -/
structure FS where
  dest : Option (List Nat)
  temp : Option (List Nat)
deriving DecidableEq, Repr

/-- Model of `struct.unpack(">Q", bytes)`: big-endian base-256 interpretation of a
byte string (for 8 wire bytes, an unsigned 64-bit value). -/
def beBytesToNat (bs : List Nat) : Nat :=
  bs.foldl (fun acc b => acc * 256 + b) 0

/-- One pass of the receive loop in `_receive_file`, with an explicit
iteration bound: each iteration reads `conn.recv(min(65536, file_size -
received))` — in the deterministic stream model, that many bytes of the
remaining stream — stops on an empty chunk (peer closed), and otherwise
appends the chunk and recurses.  Every non-final iteration consumes at
least one byte of `need`, so `fuel = need` iterations always suffice. -/
def recvLoop : Nat → List Nat → Nat → List Nat
  | 0, _, _ => []
  | fuel + 1, stream, need =>
    if need = 0 then []
    else
      let chunk := stream.take (min 65536 need)
      if chunk.length = 0 then []
      else chunk ++ recvLoop fuel (stream.drop chunk.length) (need - chunk.length)

/-- The bytes the receive loop of `_receive_file` accumulates from a
stream when `need` bytes were declared. -/
def recvBytes (stream : List Nat) (need : Nat) : List Nat :=
  recvLoop need stream need

/-- ASCII `b"OK\n"`. -/
def OK_REPLY : List Nat := [79, 75, 10]
/-- ASCII `b"ERROR\n"`. -/
def ERROR_REPLY : List Nat := [69, 82, 82, 79, 82, 10]
/-- ASCII `b"READY\n"`. -/
def READY_REPLY : List Nat := [82, 69, 65, 68, 89, 10]
/-- ASCII `b"BUSY\n"`. -/
def BUSY_REPLY : List Nat := [66, 85, 83, 89, 10]

/-- Outcome of `FileReceiver._receive_file` on one connection: the reply
bytes sent to the client, the file-system state afterwards, the
`_receiving` flag after the `finally` block, whether the connection was
closed, and how many bytes were read from the connection. -/
structure RecvResult where
  reply : List Nat
  fs : FS
  receiving : Bool
  connClosed : Bool
  bytesRead : Nat
deriving DecidableEq, Repr

/-- Model of `FileReceiver._receive_file`: read 8 header bytes (`ERROR` if fewer
arrive before the peer closes, destination and staging untouched);
interpret them big-endian as the declared length; stream that many bytes
into the staging file; on a complete receive `os.replace` the staging
file onto the destination and reply `OK`, otherwise reply `ERROR` and
delete the staging file.  The `finally` block clears `_receiving` and
closes the connection on every path. -/
def receiveFile (fs : FS) (stream : List Nat) : RecvResult :=
  let sizeData := stream.take 8
  if sizeData.length ≠ 8 then
    { reply := ERROR_REPLY, fs := fs, receiving := false, connClosed := true,
      bytesRead := sizeData.length }
  else
    let fileSize := beBytesToNat sizeData
    let content := recvBytes (stream.drop 8) fileSize
    if content.length = fileSize then
      { reply := OK_REPLY, fs := { dest := some content, temp := none },
        receiving := false, connClosed := true, bytesRead := 8 + content.length }
    else
      { reply := ERROR_REPLY, fs := { dest := fs.dest, temp := none },
        receiving := false, connClosed := true, bytesRead := 8 + content.length }

/-- Where, if anywhere, an exception escapes the try body of
`_receive_file`: `noExn` — no exception, the deterministic protocol paths
of `receiveFile`; `beforeTemp` — raised before the staging file is opened
(header `recv` or `makedirs` failing); `inBody written` — raised after
the staging file was opened, with `written` content bytes on disk
(`recv`/`write` failing mid-stream, or the short-path `ERROR` send at the
source raising before its `os.remove`); `afterPublish content` — raised
at the `OK` send, after `os.replace` already published `content`. -/
inductive ExnPoint where
  | noExn
  | beforeTemp
  | inBody (written : List Nat)
  | afterPublish (content : List Nat)
deriving DecidableEq, Repr

/-- Observable outcome of one `_receive_file` call in the
exception-aware model: reply bytes delivered to the client, file-system
state, the `_receiving` flag after the `finally` block, and whether the
connection was closed. -/
structure RecvOutcome where
  reply : List Nat
  fs : FS
  receiving : Bool
  connClosed : Bool
deriving DecidableEq, Repr

/-- Model of `_receive_file` including its except branch: when an
exception escapes the try body, the handler sends `ERROR` and then
removes the staging file if it exists — but if that `ERROR` send itself
raises (`errorSendOk = false`, e.g. the peer is gone) the remove is
skipped, the staging file is left as the exception found it, and the
exception propagates to the accept loop; the `finally` block still
resets `_receiving` and closes the connection on every path. -/
def receiveFileExn (exn : ExnPoint) (errorSendOk : Bool) (fs : FS)
    (stream : List Nat) : RecvOutcome :=
  match exn with
  | .noExn =>
    let r := receiveFile fs stream
    { reply := r.reply, fs := r.fs, receiving := r.receiving,
      connClosed := r.connClosed }
  | .beforeTemp =>
    if errorSendOk then
      { reply := ERROR_REPLY, fs := { fs with temp := none },
        receiving := false, connClosed := true }
    else
      { reply := [], fs := fs, receiving := false, connClosed := true }
  | .inBody written =>
    if errorSendOk then
      { reply := ERROR_REPLY, fs := { dest := fs.dest, temp := none },
        receiving := false, connClosed := true }
    else
      { reply := [], fs := { dest := fs.dest, temp := some written },
        receiving := false, connClosed := true }
  | .afterPublish content =>
    if errorSendOk then
      { reply := ERROR_REPLY, fs := { dest := some content, temp := none },
        receiving := false, connClosed := true }
    else
      { reply := [], fs := { dest := some content, temp := none },
        receiving := false, connClosed := true }

/-- Outcome of one iteration of `FileReceiver.start`'s accept loop on an
accepted connection. -/
structure AcceptResult where
  accepted : Bool
  reply : List Nat
  fs : FS
  player : PlayerState
  receiving : Bool
  connClosed : Bool
  bytesRead : Nat
deriving DecidableEq, Repr

/-- Model of `VideoPlayerController._can_receive_file`: `not self.player.is_playing()`,
returned together with the (possibly self-healed) player state. -/
def canReceiveFile (env : Env) (pl : PlayerState) : Bool × PlayerState :=
  let r := isPlayingRun env pl
  (!r.1, r.2)

/-- One accepted connection in `FileReceiver.start`: query the
can-receive predicate; if it is false send `b"BUSY\n"` and close without
reading; otherwise send `b"READY\n"` and run `_receive_file`. -/
def acceptConn (env : Env) (pl : PlayerState) (fs : FS) (stream : List Nat) :
    AcceptResult :=
  let c := canReceiveFile env pl
  if !c.1 then
    { accepted := false, reply := BUSY_REPLY, fs := fs, player := c.2,
      receiving := false, connClosed := true, bytesRead := 0 }
  else
    let r := receiveFile fs stream
    { accepted := true, reply := READY_REPLY ++ r.reply, fs := r.fs,
      player := c.2, receiving := r.receiving, connClosed := r.connClosed,
      bytesRead := r.bytesRead }

/-! ### Command dispatch (`VideoPlayerController._handle_command`) -/

/-- The controller state the dispatcher sees: the player state and the
file receiver's `_receiving` flag (read, never written, by dispatch). -/
structure CtrlState where
  player : PlayerState
  receiving : Bool
deriving DecidableEq, Repr

/-- Model of `VideoPlayerController._handle_command`: parse the datagram; `PLAY`
and `LOAD` return at once while a transfer is in progress and otherwise
start (resp. preload) unless already playing; `STOP` always calls
`player.stop`; `GO` always calls `player.go`; anything else only logs. -/
def handleCommand (env : Env) (data : List Nat) (st : CtrlState) : CtrlState :=
  match parseCommand data with
  | .play =>
    if st.receiving then st
    else
      let r := isPlayingRun env st.player
      if r.1 then { st with player := r.2 }
      else { st with player := (play env false r.2).st }
  | .stop => { st with player := (stop env st.player).st }
  | .load =>
    if st.receiving then st
    else
      let r := isPlayingRun env st.player
      if r.1 then { st with player := r.2 }
      else { st with player := (preload env r.2).st }
  | .go => { st with player := (go env st.player).st }
  | .unknown => st


/-! ### Helper lemmas -/

/-- The receive loop with fuel at least `need` collects exactly the first
`need` bytes of the remaining stream (all of it when the stream is
shorter: the peer closed early). -/
theorem recvLoop_eq_take :
    ∀ (fuel : Nat) (s : List Nat) (n : Nat), n ≤ fuel →
      recvLoop fuel s n = s.take n := by
  intro fuel
  induction fuel with
  | zero =>
    intro s n h
    have hn : n = 0 := by omega
    subst hn
    simp [recvLoop]
  | succ f ih =>
    intro s n h
    by_cases hn : n = 0
    · subst hn; simp [recvLoop]
    · simp only [recvLoop, if_neg hn]
      by_cases hc : (s.take (min 65536 n)).length = 0
      · rw [if_pos hc]
        have hs : s.length = 0 := by
          rw [List.length_take] at hc
          omega
        have hnil : s = [] := List.length_eq_zero.mp hs
        subst hnil
        simp
      · rw [if_neg hc]
        have hlen : (s.take (min 65536 n)).length = min (min 65536 n) s.length :=
          List.length_take _ _
        rw [ih _ _ (by rw [hlen] at hc ⊢; omega)]
        rw [hlen]
        have h1 : s.take (min 65536 n) = s.take (min (min 65536 n) s.length) := by
          rw [List.take_eq_take]
          omega
        rw [h1, ← List.take_add]
        congr 1
        omega

/-- The bytes accumulated by the receive loop are the first `need` bytes
of the stream. -/
theorem recvBytes_eq_take (s : List Nat) (n : Nat) : recvBytes s n = s.take n :=
  recvLoop_eq_take n s n (Nat.le_refl n)

/-! ### Claim theorems -/

/-- C2 — Atomic publish on failure: when at least the 8 header bytes
arrive but the stream carries strictly fewer content bytes than declared,
`_receive_file` replies `ERROR\n`, the staging file is gone, and the
destination file's content is exactly what it was before the transfer. -/
theorem transfer_atomic_publish (fs : FS) (stream : List Nat)
    (h8 : 8 ≤ stream.length)
    (hshort : stream.length - 8 < beBytesToNat (stream.take 8)) :
    (receiveFile fs stream).reply = ERROR_REPLY ∧
    (receiveFile fs stream).fs.dest = fs.dest ∧
    (receiveFile fs stream).fs.temp = none := by
  have hsz : (stream.take 8).length = 8 := by
    rw [List.length_take]; omega
  have hlen : (recvBytes (stream.drop 8) (beBytesToNat (stream.take 8))).length
      = stream.length - 8 := by
    rw [recvBytes_eq_take, List.length_take, List.length_drop]
    omega
  have hne : (recvBytes (stream.drop 8) (beBytesToNat (stream.take 8))).length
      ≠ beBytesToNat (stream.take 8) := by
    rw [hlen]; omega
  simp [receiveFile, hsz, hne]

/-- C3 — Round trip on success: a transfer whose 8-byte header declares
exactly the number of content bytes that follow makes `_receive_file`
rename the staging file onto the destination and reply `OK\n`; the
destination then holds exactly the bytes the client sent. -/
theorem transfer_round_trip (fs : FS) (header content : List Nat)
    (hlen : header.length = 8)
    (hN : beBytesToNat header = content.length) :
    (receiveFile fs (header ++ content)).reply = OK_REPLY ∧
    (receiveFile fs (header ++ content)).fs.dest = some content ∧
    (receiveFile fs (header ++ content)).fs.temp = none := by
  have ht : (header ++ content).take 8 = header := List.take_left' hlen
  have hd : (header ++ content).drop 8 = content := List.drop_left' hlen
  have hr : recvBytes content content.length = content := by
    rw [recvBytes_eq_take, List.take_length]
  simp [receiveFile, ht, hd, hlen, hN, hr]

/-- C4 — Length-header handling: if the peer closes before 8 header bytes
arrive, `_receive_file` replies `ERROR\n` and touches neither the staging
nor the destination file; with a full header, the transfer succeeds (reply
`OK\n`) exactly when the stream carries at least as many content bytes as
the big-endian integer the 8 header bytes encode. -/
theorem transfer_length_header (fs : FS) (stream : List Nat) :
    (stream.length < 8 →
      (receiveFile fs stream).reply = ERROR_REPLY ∧
      (receiveFile fs stream).fs = fs) ∧
    (8 ≤ stream.length →
      ((receiveFile fs stream).reply = OK_REPLY ↔
        beBytesToNat (stream.take 8) ≤ stream.length - 8)) := by
  constructor
  · intro hlt
    have hne : (stream.take 8).length ≠ 8 := by
      rw [List.length_take]; omega
    simp [receiveFile, hne, hlt]
  · intro hge
    have hsz : (stream.take 8).length = 8 := by
      rw [List.length_take]; omega
    have hlen : (recvBytes (stream.drop 8) (beBytesToNat (stream.take 8))).length
        = min (beBytesToNat (stream.take 8)) (stream.length - 8) := by
      rw [recvBytes_eq_take, List.length_take, List.length_drop]
    have hiff : (receiveFile fs stream).reply = OK_REPLY ↔
        (recvBytes (stream.drop 8) (beBytesToNat (stream.take 8))).length
          = beBytesToNat (stream.take 8) := by
      by_cases hc : (recvBytes (stream.drop 8) (beBytesToNat (stream.take 8))).length
          = beBytesToNat (stream.take 8)
      · simp [receiveFile, hsz, hc]
      · simp only [receiveFile, hsz, ne_eq, not_true_eq_false, if_false,
          if_neg hc]
        constructor
        · intro habs
          exact absurd habs (by decide)
        · intro habs
          exact absurd habs hc
    rw [hiff, hlen]
    omega

/-- Helper: on the exception-free protocol paths of `_receive_file`, the
`_receiving` flag is reset, the connection is closed, and (from a clean
staging area) no staging artifact is left behind. -/
theorem receiveFile_cleanup (fs : FS) (stream : List Nat)
    (h : fs.temp = none) :
    (receiveFile fs stream).receiving = false ∧
    (receiveFile fs stream).connClosed = true ∧
    (receiveFile fs stream).fs.temp = none := by
  by_cases h8 : (stream.take 8).length = 8
  · have hge : 8 ≤ stream.length := by
      rw [List.length_take] at h8; omega
    have hnl : ¬ stream.length < 8 := by omega
    by_cases hc : (recvBytes (stream.drop 8) (beBytesToNat (stream.take 8))).length
        = beBytesToNat (stream.take 8)
    · simp [receiveFile, h8, hnl, hc]
    · simp [receiveFile, h8, hnl, hc]
  · have hlt : stream.length < 8 := by
      rw [List.length_take] at h8; omega
    simp [receiveFile, h8, hlt, h]

/-- C9 counterexample — a transfer ended by an exception after two
content bytes were written to the staging file, where the except
handler's own `ERROR` send raises: the handling of the connection still
finishes (flag reset, connection closed), yet the staging artifact
survives, contradicting the claim that a failed transfer leaves no
staging artifact behind. -/
theorem no_persistent_error_state_cex :
    (receiveFileExn (ExnPoint.inBody [1, 2]) false ⟨some [7], none⟩
        [0, 0, 0, 0, 0, 0, 0, 5, 1, 2]).receiving = false ∧
    (receiveFileExn (ExnPoint.inBody [1, 2]) false ⟨some [7], none⟩
        [0, 0, 0, 0, 0, 0, 0, 5, 1, 2]).connClosed = true ∧
    (receiveFileExn (ExnPoint.inBody [1, 2]) false ⟨some [7], none⟩
        [0, 0, 0, 0, 0, 0, 0, 5, 1, 2]).fs.temp = some [1, 2] ∧
    (receiveFileExn (ExnPoint.inBody [1, 2]) false ⟨some [7], none⟩
        [0, 0, 0, 0, 0, 0, 0, 5, 1, 2]).fs.temp ≠ none := by
  decide

/-- C9 (amended) — No error state persists across connections: on every
path of `_receive_file` — successful, short, or ended by an exception —
the `_receiving` flag is back to false and the connection is closed, so a
failed transfer never blocks later commands or transfers; starting from a
clean staging area, no staging artifact survives, except in the one case
where an exception escaped the try body after the staging file was
written and the handler's own `ERROR` send also raises — then exactly the
written staging content remains. -/
theorem no_persistent_error_state (exn : ExnPoint) (eok : Bool) (fs : FS)
    (stream : List Nat) (h : fs.temp = none) :
    (receiveFileExn exn eok fs stream).receiving = false ∧
    (receiveFileExn exn eok fs stream).connClosed = true ∧
    ((receiveFileExn exn eok fs stream).fs.temp = none ∨
      (eok = false ∧ ∃ w, exn = ExnPoint.inBody w ∧
        (receiveFileExn exn eok fs stream).fs.temp = some w)) := by
  cases exn with
  | noExn =>
    have hc := receiveFile_cleanup fs stream h
    exact ⟨hc.1, hc.2.1, Or.inl hc.2.2⟩
  | beforeTemp =>
    cases eok with
    | false => exact ⟨rfl, rfl, Or.inl h⟩
    | true => simp [receiveFileExn]
  | inBody w =>
    cases eok with
    | false => exact ⟨rfl, rfl, Or.inr ⟨rfl, ⟨w, rfl, rfl⟩⟩⟩
    | true => simp [receiveFileExn]
  | afterPublish c =>
    cases eok with
    | false => exact ⟨rfl, rfl, Or.inl rfl⟩
    | true => simp [receiveFileExn]

/-- C10 — Zero-length transfer: a header of eight zero bytes declares
length 0; the loop reads no content bytes, the empty staging file is
renamed onto the destination (overwriting the media file with an empty
file), and the reply is `OK\n`. -/
theorem zero_length_transfer (fs : FS) (rest : List Nat) :
    (receiveFile fs (List.replicate 8 0 ++ rest)).reply = OK_REPLY ∧
    (receiveFile fs (List.replicate 8 0 ++ rest)).fs.dest = some [] ∧
    (receiveFile fs (List.replicate 8 0 ++ rest)).fs.temp = none ∧
    (receiveFile fs (List.replicate 8 0 ++ rest)).bytesRead = 8 := by
  have hlen : (List.replicate 8 (0 : Nat)).length = 8 := by simp
  have ht : (List.replicate 8 (0 : Nat) ++ rest).take 8 = List.replicate 8 0 :=
    List.take_left' hlen
  have hd : (List.replicate 8 (0 : Nat) ++ rest).drop 8 = rest :=
    List.drop_left' hlen
  have hbe : beBytesToNat (List.replicate 8 0) = 0 := by decide
  have hbe2 : beBytesToNat [0, 0, 0, 0, 0, 0, 0, 0] = 0 := by decide
  simp [receiveFile, ht, hd, hbe, hbe2, recvBytes, recvLoop]

/-- C1 — Mutual exclusion between transfer and playback: a connection is
answered `READY` (accepted) iff the playback status observed by the
can-receive predicate is `Idle`; a rejected connection is answered
`BUSY\n` and closed with zero bytes read from it; and a `PLAY` or `LOAD`
command handled while the transfer-in-progress flag is set leaves the
controller state (player included) unchanged. -/
theorem transfer_playback_mutual_exclusion (env : Env) (pl : PlayerState)
    (fs : FS) (stream : List Nat) (st : CtrlState) (data : List Nat) :
    ((acceptConn env pl fs stream).accepted = true ↔
      status (canReceiveFile env pl).2 = PlaybackStatus.Idle) ∧
    ((acceptConn env pl fs stream).accepted = false →
      (acceptConn env pl fs stream).reply = BUSY_REPLY ∧
      (acceptConn env pl fs stream).bytesRead = 0 ∧
      (acceptConn env pl fs stream).connClosed = true) ∧
    (st.receiving = true →
      (parseCommand data = Cmd.play ∨ parseCommand data = Cmd.load) →
      handleCommand env data st = st) := by
  refine ⟨?_, ?_, ?_⟩
  · cases hp : pl.process with
    | none => simp [acceptConn, canReceiveFile, isPlayingRun, status, hp]
    | some k =>
      by_cases ha : env.engineAlive
      · cases hq : pl.paused <;>
          simp [acceptConn, canReceiveFile, isPlayingRun, status, hp, ha, hq]
      · simp [acceptConn, canReceiveFile, isPlayingRun, status, hp, ha,
          clearSession]
  · intro hacc
    cases hp : pl.process with
    | none => simp [acceptConn, canReceiveFile, isPlayingRun, hp] at hacc
    | some k =>
      by_cases ha : env.engineAlive
      · simp [acceptConn, canReceiveFile, isPlayingRun, hp, ha]
      · simp [acceptConn, canReceiveFile, isPlayingRun, hp, ha] at hacc
  · intro hrecv hcmd
    rcases hcmd with hparse | hparse <;> simp [handleCommand, hparse, hrecv]

/-- C5 counterexample — the payload `b" PLAY"` (a leading space) is
dispatched as `Play` by the code (Python `strip()` removes leading
whitespace too), yet after stripping only trailing whitespace and
case-normalizing, as the claim words it, it equals none of the four
command literals: the claimed iff fails. -/
theorem command_recognition_cex :
    parseCommand [32, 80, 76, 65, 89] = Cmd.play ∧
    claimTrailingNormalize [32, 80, 76, 65, 89] ≠ PLAY_BYTES ∧
    claimTrailingNormalize [32, 80, 76, 65, 89] ≠ STOP_BYTES ∧
    claimTrailingNormalize [32, 80, 76, 65, 89] ≠ LOAD_BYTES ∧
    claimTrailingNormalize [32, 80, 76, 65, 89] ≠ GO_BYTES := by
  decide

/-- C5 (amended) — Command recognition: a datagram payload is dispatched
as a command iff, after stripping leading and trailing whitespace and
case-normalizing, it equals `PLAY`, `STOP`, `LOAD` or `GO`; every other
payload leaves the controller state (player and transfer flag)
unchanged. -/
theorem command_recognition (env : Env) (data : List Nat) (st : CtrlState) :
    (¬ parseCommand data = Cmd.unknown ↔
      (upperBytes (stripBytes data) = PLAY_BYTES ∨
       upperBytes (stripBytes data) = STOP_BYTES ∨
       upperBytes (stripBytes data) = LOAD_BYTES ∨
       upperBytes (stripBytes data) = GO_BYTES)) ∧
    (parseCommand data = Cmd.unknown → handleCommand env data st = st) := by
  constructor
  · simp only [parseCommand]
    split_ifs with h1 h2 h3 h4 <;> simp_all
  · intro h
    simp [handleCommand, h]

/-- C6 — Go gating: invoking `go` while the status is `Idle` or `Playing`
returns `False`, leaves the player state unchanged, and writes no control
instruction to the FIFO. -/
theorem go_gating (env : Env) (st : PlayerState)
    (h : status st = PlaybackStatus.Idle ∨ status st = PlaybackStatus.Playing) :
    (go env st).ok = false ∧ (go env st).st = st ∧ (go env st).sent = [] := by
  cases hp : st.process with
  | none => simp [go, hp]
  | some k =>
    have hpaused : st.paused = false := by
      cases hq : st.paused
      · rfl
      · exfalso
        rcases h with h | h <;> simp [status, hp, hq] at h
    simp [go, hp, hpaused]

/-- C7 — Idempotent terminate: after any `stop`, the player has no live
process, so a second `stop` never errors: it returns `False` ("nothing to
stop"), leaves the state exactly as the first call left it, and sends no
instruction. -/
theorem stop_idempotent (env env2 : Env) (st : PlayerState) :
    (stop env2 (stop env st).st).ok = false ∧
    (stop env2 (stop env st).st).st = (stop env st).st ∧
    (stop env2 (stop env st).st).sent = [] := by
  cases hp : st.process with
  | none => simp [stop, hp]
  | some k => simp [stop, hp, clearSession]

/-- C8 — Terminate postconditions: with a live session, `stop` returns
`True`; on every path (graceful exit, forced kill, exception while
stopping) the process handle, FIFO descriptor and paused flag are cleared,
leaving status `Idle`; when the control channel works the quit instruction
is sent; without an exception and with the 2 s graceful wait expiring, the
whole process group is force-killed. -/
theorem terminate_postconditions (env : Env) (st : PlayerState)
    (h : st.process.isSome = true) :
    (stop env st).ok = true ∧
    (stop env st).st.process = none ∧
    (stop env st).st.fifo_fd = none ∧
    (stop env st).st.paused = false ∧
    status (stop env st).st = PlaybackStatus.Idle ∧
    (sendCommandOk env st = true → (stop env st).sent = [Instr.quit]) ∧
    (env.stopExn = false → env.exitsInTimeout = false →
      (stop env st).killedPg = true) ∧
    GRACEFUL_STOP_TIMEOUT = 2 := by
  cases hp : st.process with
  | none => rw [hp] at h; simp at h
  | some k =>
    refine ⟨by simp [stop, hp], by simp [stop, hp, clearSession],
      by simp [stop, hp, clearSession], by simp [stop, hp, clearSession],
      by simp [stop, hp, clearSession, status], ?_, ?_, rfl⟩
    · intro hs
      simp [stop, hp, hs]
    · intro h1 h2
      simp [stop, hp, h1, h2]

/-! ### Witnesses: the claim theorems evaluated at concrete inputs -/

/-- Witness for C1: an idle player, an empty stream, and a controller
whose transfer flag is set. -/
theorem transfer_playback_mutual_exclusion_witness :
    ((acceptConn ⟨true, true, true, true, false, true⟩ ⟨none, none, false⟩
        ⟨none, none⟩ []).accepted = true ↔
      status (canReceiveFile ⟨true, true, true, true, false, true⟩
        ⟨none, none, false⟩).2 = PlaybackStatus.Idle) ∧
    ((acceptConn ⟨true, true, true, true, false, true⟩ ⟨none, none, false⟩
        ⟨none, none⟩ []).accepted = false →
      (acceptConn ⟨true, true, true, true, false, true⟩ ⟨none, none, false⟩
        ⟨none, none⟩ []).reply = BUSY_REPLY ∧
      (acceptConn ⟨true, true, true, true, false, true⟩ ⟨none, none, false⟩
        ⟨none, none⟩ []).bytesRead = 0 ∧
      (acceptConn ⟨true, true, true, true, false, true⟩ ⟨none, none, false⟩
        ⟨none, none⟩ []).connClosed = true) ∧
    ((⟨⟨none, none, false⟩, true⟩ : CtrlState).receiving = true →
      (parseCommand [80, 76, 65, 89] = Cmd.play ∨
       parseCommand [80, 76, 65, 89] = Cmd.load) →
      handleCommand ⟨true, true, true, true, false, true⟩ [80, 76, 65, 89]
        ⟨⟨none, none, false⟩, true⟩ = ⟨⟨none, none, false⟩, true⟩) :=
  transfer_playback_mutual_exclusion ⟨true, true, true, true, false, true⟩
    ⟨none, none, false⟩ ⟨none, none⟩ [] ⟨⟨none, none, false⟩, true⟩
    [80, 76, 65, 89]

/-- Witness for C2: ten stream bytes declaring five content bytes but
carrying only two; the destination keeps its old content `[7]`. -/
theorem transfer_atomic_publish_witness :
    8 ≤ ([0, 0, 0, 0, 0, 0, 0, 5, 1, 2] : List Nat).length ∧
    ([0, 0, 0, 0, 0, 0, 0, 5, 1, 2] : List Nat).length - 8 <
      beBytesToNat (([0, 0, 0, 0, 0, 0, 0, 5, 1, 2] : List Nat).take 8) ∧
    ((receiveFile ⟨some [7], none⟩ [0, 0, 0, 0, 0, 0, 0, 5, 1, 2]).reply
        = ERROR_REPLY ∧
     (receiveFile ⟨some [7], none⟩ [0, 0, 0, 0, 0, 0, 0, 5, 1, 2]).fs.dest
        = (⟨some [7], none⟩ : FS).dest ∧
     (receiveFile ⟨some [7], none⟩ [0, 0, 0, 0, 0, 0, 0, 5, 1, 2]).fs.temp
        = none) :=
  ⟨by decide, by decide,
    transfer_atomic_publish ⟨some [7], none⟩ [0, 0, 0, 0, 0, 0, 0, 5, 1, 2]
      (by decide) (by decide)⟩

/-- Witness for C3: a header declaring three bytes followed by exactly
those three bytes ends with `OK` and the destination holding them. -/
theorem transfer_round_trip_witness :
    ([0, 0, 0, 0, 0, 0, 0, 3] : List Nat).length = 8 ∧
    beBytesToNat [0, 0, 0, 0, 0, 0, 0, 3] = ([10, 20, 30] : List Nat).length ∧
    ((receiveFile ⟨some [7], none⟩
        ([0, 0, 0, 0, 0, 0, 0, 3] ++ [10, 20, 30])).reply = OK_REPLY ∧
     (receiveFile ⟨some [7], none⟩
        ([0, 0, 0, 0, 0, 0, 0, 3] ++ [10, 20, 30])).fs.dest = some [10, 20, 30] ∧
     (receiveFile ⟨some [7], none⟩
        ([0, 0, 0, 0, 0, 0, 0, 3] ++ [10, 20, 30])).fs.temp = none) :=
  ⟨by decide, by decide,
    transfer_round_trip ⟨some [7], none⟩ [0, 0, 0, 0, 0, 0, 0, 3] [10, 20, 30]
      (by decide) (by decide)⟩

/-- Witness for C4: a three-byte stream closes before the 8-byte header
is complete, so the reply is `ERROR` and the files are untouched. -/
theorem transfer_length_header_witness :
    ([1, 2, 3] : List Nat).length < 8 ∧
    ((receiveFile ⟨some [7], none⟩ [1, 2, 3]).reply = ERROR_REPLY ∧
     (receiveFile ⟨some [7], none⟩ [1, 2, 3]).fs = ⟨some [7], none⟩) :=
  ⟨by decide,
    (transfer_length_header ⟨some [7], none⟩ [1, 2, 3]).1 (by decide)⟩

/-- Witness for C5 (amended) at the payload `b"go"`. -/
theorem command_recognition_witness :
    (¬ parseCommand [103, 111] = Cmd.unknown ↔
      (upperBytes (stripBytes [103, 111]) = PLAY_BYTES ∨
       upperBytes (stripBytes [103, 111]) = STOP_BYTES ∨
       upperBytes (stripBytes [103, 111]) = LOAD_BYTES ∨
       upperBytes (stripBytes [103, 111]) = GO_BYTES)) ∧
    (parseCommand [103, 111] = Cmd.unknown →
      handleCommand ⟨true, true, true, true, false, true⟩ [103, 111]
        ⟨⟨none, none, false⟩, false⟩ = ⟨⟨none, none, false⟩, false⟩) :=
  command_recognition ⟨true, true, true, true, false, true⟩ [103, 111]
    ⟨⟨none, none, false⟩, false⟩

/-- Witness for C6: `go` on an idle player fails with no effect. -/
theorem go_gating_witness :
    (status ⟨none, none, false⟩ = PlaybackStatus.Idle ∨
     status ⟨none, none, false⟩ = PlaybackStatus.Playing) ∧
    ((go ⟨true, true, true, true, false, true⟩ ⟨none, none, false⟩).ok = false ∧
     (go ⟨true, true, true, true, false, true⟩ ⟨none, none, false⟩).st
        = ⟨none, none, false⟩ ∧
     (go ⟨true, true, true, true, false, true⟩ ⟨none, none, false⟩).sent = []) :=
  ⟨Or.inl (by decide),
    go_gating ⟨true, true, true, true, false, true⟩ ⟨none, none, false⟩
      (Or.inl (by decide))⟩

/-- Witness for C8: stopping a live session (handle and FIFO set) in an
environment whose engine exits within the graceful timeout. -/
theorem terminate_postconditions_witness :
    (⟨some 1, some 1, false⟩ : PlayerState).process.isSome = true ∧
    ((stop ⟨true, true, true, true, false, true⟩ ⟨some 1, some 1, false⟩).ok
        = true ∧
     (stop ⟨true, true, true, true, false, true⟩
        ⟨some 1, some 1, false⟩).st.process = none ∧
     (stop ⟨true, true, true, true, false, true⟩
        ⟨some 1, some 1, false⟩).st.fifo_fd = none ∧
     (stop ⟨true, true, true, true, false, true⟩
        ⟨some 1, some 1, false⟩).st.paused = false ∧
     status (stop ⟨true, true, true, true, false, true⟩
        ⟨some 1, some 1, false⟩).st = PlaybackStatus.Idle ∧
     (sendCommandOk ⟨true, true, true, true, false, true⟩
        ⟨some 1, some 1, false⟩ = true →
       (stop ⟨true, true, true, true, false, true⟩
         ⟨some 1, some 1, false⟩).sent = [Instr.quit]) ∧
     ((⟨true, true, true, true, false, true⟩ : Env).stopExn = false →
       (⟨true, true, true, true, false, true⟩ : Env).exitsInTimeout = false →
       (stop ⟨true, true, true, true, false, true⟩
         ⟨some 1, some 1, false⟩).killedPg = true) ∧
     GRACEFUL_STOP_TIMEOUT = 2) :=
  ⟨by decide,
    terminate_postconditions ⟨true, true, true, true, false, true⟩
      ⟨some 1, some 1, false⟩ (by decide)⟩

/-- Witness for C9 (amended): an exception-free short stream on a clean
staging area resets the flag, closes the connection, and leaves no
staging artifact. -/
theorem no_persistent_error_state_witness :
    (⟨some [7], none⟩ : FS).temp = none ∧
    ((receiveFileExn ExnPoint.noExn true ⟨some [7], none⟩ [0, 1, 2]).receiving
        = false ∧
     (receiveFileExn ExnPoint.noExn true ⟨some [7], none⟩ [0, 1, 2]).connClosed
        = true ∧
     ((receiveFileExn ExnPoint.noExn true ⟨some [7], none⟩ [0, 1, 2]).fs.temp
        = none ∨
       (true = false ∧ ∃ w, ExnPoint.noExn = ExnPoint.inBody w ∧
         (receiveFileExn ExnPoint.noExn true ⟨some [7], none⟩ [0, 1, 2]).fs.temp
            = some w))) :=
  ⟨rfl, no_persistent_error_state ExnPoint.noExn true ⟨some [7], none⟩
    [0, 1, 2] rfl⟩

end VideoPlayerModel
